import Mathlib

set_option maxRecDepth 100000

/-!
Verification of the palm-reading generation and fallback pipeline.

The development shallowly embeds the two route handlers of the repository:
the reading endpoint (fallback generator `generateLocalReading`, retry loop
`callGeminiWithRetry`, the two-stage tolerant parse, and the `POST` handler)
and the chat endpoint's local responder `generateLocalChatResponse`.

Text is modelled as `List Char`.  JavaScript dynamic values that the handlers
inspect (request-body fields) are modelled by `JsVal`.  The JavaScript
"signed 32-bit shift" semantics of `>>` (ToInt32 then arithmetic shift) is
modelled exactly, since `Date.now()` exceeds 2^32 and the sign of the
converted seed is observable in the fallback generator.  `JSON.parse` is
modelled by an executable recursive-descent parser over `List Char`.
Ambient effects are explicit arguments: the clock (`Date.now()`) is a `Nat`
argument, the external model call is an oracle `Nat → Except ε ρ` giving each
attempt's outcome, and `Math.random` selection is an abstract index argument.
-/

namespace Palm

/-- Text, as JavaScript strings read character by character. -/
abbrev Str := List Char

/-- A JavaScript value as it can appear in a parsed request-body field. -/
inductive JsVal where
  | undef
  | null
  | bool (b : Bool)
  | num (n : Int)
  | str (s : Str)
deriving DecidableEq

/-- JavaScript truthiness of a `JsVal` (`if (x)`). -/
def jsTruthy : JsVal → Bool
  | .undef => false
  | .null => false
  | .bool b => b
  | .num n => decide (n ≠ 0)
  | .str s => !s.isEmpty

/-- JavaScript strict equality of a value with a string literal (`x === "s"`). -/
def jsEqStr (v : JsVal) (s : Str) : Bool :=
  match v with
  | .str t => decide (t = s)
  | _ => false

/-- JavaScript ToString as used by template-literal interpolation. -/
def jsToString : JsVal → Str
  | .undef => ("undefined").toList
  | .null => ("null").toList
  | .bool true => ("true").toList
  | .bool false => ("false").toList
  | .num n => (toString n).toList
  | .str s => s

/-- ECMAScript ToInt32: reduce mod 2^32 and reinterpret as a signed 32-bit value. -/
def int32 (n : Nat) : Int :=
  if n % 4294967296 < 2147483648 then Int.ofNat (n % 4294967296)
  else Int.ofNat (n % 4294967296) - 4294967296

/-- JavaScript `n >> k` for a nonnegative number `n`: ToInt32, then arithmetic
shift right, which is floor division by `2^k`; the divisor is positive, so
Euclidean division computes exactly that floor. -/
def jsShr (n : Nat) (k : Nat) : Int :=
  Int.ediv (int32 n) (Int.ofNat (2 ^ k))

/-- JavaScript array indexing `arr[i]` for an integer index: a negative index
is an absent property and reads as `undefined` (here `none`). -/
def jsGetElem (arr : List Str) (i : Int) : Option Str :=
  if 0 ≤ i then arr.get? i.toNat else none

/-- `pick` of the source: `arr[seed % arr.length]`.  `seed` is the full
`Date.now()` value; `%` on JavaScript numbers keeps its exact value here. -/
def pick (seed : Nat) (arr : List Str) : Option Str :=
  arr.get? (seed % arr.length)

/-- `pick2` of the source: `arr[(seed >> 4) % arr.length]`, with the
JavaScript 32-bit semantics of `>>` and the sign-of-dividend `%`. -/
def pick2 (seed : Nat) (arr : List Str) : Option Str :=
  jsGetElem arr (Int.tmod (jsShr seed 4) (Int.ofNat arr.length))

/-- `pick3` of the source: `arr[(seed >> 8) % arr.length]`. -/
def pick3 (seed : Nat) (arr : List Str) : Option Str :=
  jsGetElem arr (Int.tmod (jsShr seed 8) (Int.ofNat arr.length))

/-- The `heartObservations` pool. -/
def heartObservations : List Str :=
  [("Your heart line curves gracefully upward, touching the base of your index finger").toList,
   ("A deep, clear heart line extends across your palm with gentle undulations").toList,
   ("Your heart line shows a slight fork at its end, branching toward wisdom").toList,
   ("The heart line on your palm runs long and unbroken, with subtle depth variations").toList,
   ("A beautifully curved heart line sweeps across your palm with quiet strength").toList]

/-- The `heartMeanings` pool. -/
def heartMeanings : List Str :=
  [("You possess a deeply romantic nature and form lasting emotional bonds with those you love.").toList,
   ("Your emotional intelligence guides you through life\x27s complexities with grace and understanding.").toList,
   ("You have the capacity for profound love, though you choose carefully where to place your heart.").toList,
   ("Your emotional world is rich and textured—you feel deeply and love with intention.").toList,
   ("You balance heart and mind beautifully, making decisions that honor both logic and feeling.").toList]

/-- The `headObservations` pool. -/
def headObservations : List Str :=
  [("Your head line extends with clarity and purpose across the center of your palm").toList,
   ("A gently sloping head line indicates a blend of creative and analytical thinking").toList,
   ("The head line shows depth and consistency, curving slightly downward toward imagination").toList,
   ("Your head line begins strongly, showing independence of thought from an early age").toList,
   ("A long, clear head line stretches across your palm with remarkable definition").toList]

/-- The `headMeanings` pool. -/
def headMeanings : List Str :=
  [("You possess a sharp, analytical mind that can cut through confusion to find truth.").toList,
   ("Your thinking blends creativity with practicality—you dream big but plan wisely.").toList,
   ("Mental clarity is your gift; you see patterns others miss and connect disparate ideas.").toList,
   ("You think independently and aren\x27t easily swayed by popular opinion or passing trends.").toList,
   ("Your intellectual curiosity knows no bounds—learning is a lifelong joy for you.").toList]

/-- The `lifeObservations` pool. -/
def lifeObservations : List Str :=
  [("The life line sweeps in a wide arc around your thumb, full of vitality").toList,
   ("Your life line shows remarkable depth and clarity, curving with confidence").toList,
   ("A strong life line encircles the mount of Venus with steady determination").toList,
   ("The life line begins boldly and maintains its strength throughout its journey").toList,
   ("Your life line shows subtle variations that speak to meaningful life transitions").toList]

/-- The `lifeMeanings` pool. -/
def lifeMeanings : List Str :=
  [("You have abundant life energy and the resilience to overcome any challenge.").toList,
   ("Your vitality is strong—you bring enthusiasm and energy to everything you do.").toList,
   ("Major positive transitions await you; the universe is aligning opportunities on your path.").toList,
   ("You have deep reserves of strength that emerge precisely when you need them most.").toList,
   ("Your life force is vibrant; you inspire others simply by being authentically yourself.").toList]

/-- Template 0 of `overallReadings` (branches on `dominantHand === "left"`). -/
def overallTemplate0 (dominantHand : JsVal) : Str :=
  ("Your palm reveals a beautiful harmony between heart, mind, and spirit. The lines suggest someone who has walked through challenges with grace and emerged wiser. ").toList ++
  (if jsEqStr dominantHand (("left").toList) then
    ("Your left hand shows the gifts you were born with—and they are considerable.").toList
   else
    ("Your right hand shows what you\x27re actively creating—and it\x27s remarkable.").toList) ++
  (" A period of growth and fulfillment lies ahead.").toList

/-- Template 1 of `overallReadings` (interpolates `focusArea` when truthy). -/
def overallTemplate1 (focusArea : JsVal) : Str :=
  ("The Oracle sees in your palm a soul on the cusp of transformation. Your lines speak of accumulated wisdom and untapped potential waiting to bloom. ").toList ++
  (if jsTruthy focusArea then
    ("In matters of ").toList ++ jsToString focusArea ++
    (", the spirits whisper of positive change approaching.").toList
   else
    ("Trust in the journey that unfolds before you.").toList) ++
  (" The universe recognizes your efforts.").toList

/-- Template 2 of `overallReadings` (branches on `dominantHand === "right"`). -/
def overallTemplate2 (dominantHand : JsVal) : Str :=
  ("Your palm tells a story of resilience and hope. The major lines align in a pattern suggesting that past struggles are transforming into future strengths. ").toList ++
  (if jsEqStr dominantHand (("right").toList) then
    ("Your active hand shows you\x27re taking control of your destiny.").toList
   else
    ("Your receptive hand reveals deep intuitive gifts.").toList) ++
  (" Beautiful chapters await.").toList

/-- Template 3 of `overallReadings` (interpolates `focusArea` when truthy). -/
def overallTemplate3 (focusArea : JsVal) : Str :=
  ("The lines of your palm weave a tapestry of promise. Heart and head work in concert, guiding you toward meaningful experiences and genuine connections. ").toList ++
  (if jsTruthy focusArea then
    ("The energy around ").toList ++ jsToString focusArea ++
    (" is particularly bright in your reading.").toList
   else
    ("All aspects of your life are moving toward balance.").toList) ++
  (" Trust your inner compass.").toList

/-- Template 4 of `overallReadings` (branches on `dominantHand === "left"`). -/
def overallTemplate4 (dominantHand : JsVal) : Str :=
  ("Your palm radiates quiet strength and untold potential. The Oracle perceives a soul that has learned much and has even more to discover. ").toList ++
  (if jsEqStr dominantHand (("left").toList) then
    ("Your innate talents are your greatest treasures.").toList
   else
    ("Your actions are shaping a future filled with purpose.").toList) ++
  (" Walk forward with confidence.").toList

/-- The `overallReadings` array: the template literals are evaluated eagerly
with the current `dominantHand` and `focusArea` when the array is built. -/
def overallReadings (dominantHand focusArea : JsVal) : List Str :=
  [overallTemplate0 dominantHand,
   overallTemplate1 focusArea,
   overallTemplate2 dominantHand,
   overallTemplate3 focusArea,
   overallTemplate4 dominantHand]

/-- The `adviceList` pool. -/
def adviceList : List Str :=
  [("Trust your intuition—it has been sharpened by experience and will not lead you astray.").toList,
   ("The path ahead may seem unclear, but each step you take illuminates the next. Keep moving.").toList,
   ("Open your heart to new possibilities; the universe is preparing gifts you cannot yet imagine.").toList,
   ("Balance is your key to fulfillment—nurture both your ambitions and your need for peace.").toList,
   ("Your greatest strength lies in your authenticity. Never dim your light for others\x27 comfort.").toList,
   ("The spirits remind you: what you seek is also seeking you. Remain open and patient.").toList,
   ("Release what no longer serves you; your hands are meant to receive new blessings.").toList]

/-- A `{observation, meaning}` pair of the fallback reading object.  Either
property holds `undefined` (here `none`) when its array index was negative. -/
structure LinePair where
  observation : Option Str
  meaning : Option Str
deriving DecidableEq

/-- The object literal returned by `generateLocalReading`. -/
structure LocalReading where
  heartLine : LinePair
  headLine : LinePair
  lifeLine : LinePair
  fateLine : LinePair
  overallReading : Option Str
  advice : Option Str
deriving DecidableEq

/-- `generateLocalReading(dominantHand, focusArea)` with the `Date.now()`
sample `seed` made an explicit argument. -/
def generateLocalReading (seed : Nat) (dominantHand focusArea : JsVal) : LocalReading :=
  { heartLine := { observation := pick seed heartObservations,
                   meaning := pick2 seed heartMeanings }
    headLine := { observation := pick seed headObservations,
                  meaning := pick2 seed headMeanings }
    lifeLine := { observation := pick seed lifeObservations,
                  meaning := pick2 seed lifeMeanings }
    fateLine := { observation := some (("A subtle fate line emerges from the base of your palm, suggesting destiny is actively unfolding.").toList),
                  meaning := some (("Your life\x27s direction is becoming clearer; trust the path that reveals itself.").toList) }
    overallReading := pick3 seed (overallReadings dominantHand focusArea)
    advice := pick seed adviceList }

/-- A JSON value, as produced by `JSON.parse`.  A number keeps the characters
of its literal; no claim of this development inspects numeric values. -/
inductive Json where
  | null
  | bool (b : Bool)
  | num (lit : Str)
  | str (s : Str)
  | arr (elems : List Json)
  | obj (fields : List (Str × Json))

/-- JSON insignificant whitespace (space, tab, line feed, carriage return). -/
def isJsonWs (c : Char) : Bool :=
  c = ' ' || c = '\t' || c = '\n' || c = '\r'

/-- Skip JSON whitespace. -/
def skipWs (l : Str) : Str := l.dropWhile isJsonWs

/-- Value of a hexadecimal digit. -/
def hexVal (c : Char) : Option Nat :=
  if '0' ≤ c ∧ c ≤ '9' then some (c.toNat - 48)
  else if 'a' ≤ c ∧ c ≤ 'f' then some (c.toNat - 87)
  else if 'A' ≤ c ∧ c ≤ 'F' then some (c.toNat - 55)
  else none

/-- Parse the body of a JSON string after the opening quote, returning the
decoded characters and the remaining input after the closing quote. -/
def parseStringBody : Nat → Str → Option (Str × Str)
  | 0, _ => none
  | fuel + 1, l =>
    match l with
    | [] => none
    | '\"' :: r => some ([], r)
    | '\\' :: r =>
      match r with
      | '\"' :: r2 => (parseStringBody fuel r2).map (fun p => ('\"' :: p.1, p.2))
      | '\\' :: r2 => (parseStringBody fuel r2).map (fun p => ('\\' :: p.1, p.2))
      | '/' :: r2 => (parseStringBody fuel r2).map (fun p => ('/' :: p.1, p.2))
      | 'b' :: r2 => (parseStringBody fuel r2).map (fun p => ('\x08' :: p.1, p.2))
      | 'f' :: r2 => (parseStringBody fuel r2).map (fun p => ('\x0c' :: p.1, p.2))
      | 'n' :: r2 => (parseStringBody fuel r2).map (fun p => ('\n' :: p.1, p.2))
      | 'r' :: r2 => (parseStringBody fuel r2).map (fun p => ('\r' :: p.1, p.2))
      | 't' :: r2 => (parseStringBody fuel r2).map (fun p => ('\t' :: p.1, p.2))
      | 'u' :: h1 :: h2 :: h3 :: h4 :: r2 =>
        match hexVal h1, hexVal h2, hexVal h3, hexVal h4 with
        | some a, some b, some c, some d =>
          (parseStringBody fuel r2).map
            (fun p => (Char.ofNat (((a * 16 + b) * 16 + c) * 16 + d) :: p.1, p.2))
        | _, _, _, _ => none
      | _ => none
    | c :: r =>
      if c.toNat < 32 then none
      else (parseStringBody fuel r).map (fun p => (c :: p.1, p.2))

/-- Split a leading run of decimal digits from the input. -/
def digitSpan (l : Str) : Str × Str :=
  (l.takeWhile Char.isDigit, l.dropWhile Char.isDigit)

/-- One or more decimal digits. -/
def digits1 (l : Str) : Option (Str × Str) :=
  let p := digitSpan l
  if p.1.isEmpty then none else some p

/-- The integer part of a JSON number: `0`, or a nonzero digit then digits. -/
def parseIntPart (l : Str) : Option (Str × Str) :=
  match l with
  | '0' :: r => some (['0'], r)
  | c :: r => if c.isDigit then some (digitSpan (c :: r)) else none
  | [] => none

/-- The optional fraction part of a JSON number. -/
def parseFracPart (l : Str) : Option (Str × Str) :=
  match l with
  | '.' :: r => (digits1 r).map (fun p => ('.' :: p.1, p.2))
  | _ => some ([], l)

/-- An optionally signed digit run, for the exponent part. -/
def parseSignedDigits (l : Str) : Option (Str × Str) :=
  match l with
  | '+' :: r => (digits1 r).map (fun p => ('+' :: p.1, p.2))
  | '-' :: r => (digits1 r).map (fun p => ('-' :: p.1, p.2))
  | _ => digits1 l

/-- The optional exponent part of a JSON number. -/
def parseExpPart (l : Str) : Option (Str × Str) :=
  match l with
  | 'e' :: r => (parseSignedDigits r).map (fun p => ('e' :: p.1, p.2))
  | 'E' :: r => (parseSignedDigits r).map (fun p => ('E' :: p.1, p.2))
  | _ => some ([], l)

/-- Parse a JSON number starting at the first character of its literal. -/
def parseNumber (l : Str) : Option (Str × Str) :=
  match l with
  | '-' :: r => do
    let (i, r1) ← parseIntPart r
    let (f, r2) ← parseFracPart r1
    let (e, r3) ← parseExpPart r2
    some ('-' :: (i ++ f ++ e), r3)
  | _ => do
    let (i, r1) ← parseIntPart l
    let (f, r2) ← parseFracPart r1
    let (e, r3) ← parseExpPart r2
    some (i ++ f ++ e, r3)

/-- Record a parsed object member the way JavaScript property assignment
does: a repeated key keeps its first position but takes the later value. -/
def setKey (fields : List (Str × Json)) (k : Str) (v : Json) : List (Str × Json) :=
  match fields with
  | [] => [(k, v)]
  | (k2, v2) :: rest => if k2 = k then (k2, v) :: rest else (k2, v2) :: setKey rest k v

mutual

/-- Parse one JSON value, skipping leading whitespace.  The fuel bounds the
nesting recursion; `jsonParse` supplies `length + 1`, which never exhausts
because every recursive call first consumes at least one character. -/
def parseValue : Nat → Str → Option (Json × Str)
  | 0, _ => none
  | fuel + 1, input =>
    match skipWs input with
    | [] => none
    | c :: rest =>
      if c = '\x7b' then
        match skipWs rest with
        | '\x7d' :: r => some (Json.obj [], r)
        | _ => parseObjRest fuel [] rest
      else if c = '[' then
        match skipWs rest with
        | ']' :: r => some (Json.arr [], r)
        | _ => parseArrRest fuel [] rest
      else if c = '\"' then
        match parseStringBody (rest.length + 1) rest with
        | some (s, r) => some (Json.str s, r)
        | none => none
      else if c = 't' then
        match rest with
        | 'r' :: 'u' :: 'e' :: r => some (Json.bool true, r)
        | _ => none
      else if c = 'f' then
        match rest with
        | 'a' :: 'l' :: 's' :: 'e' :: r => some (Json.bool false, r)
        | _ => none
      else if c = 'n' then
        match rest with
        | 'u' :: 'l' :: 'l' :: r => some (Json.null, r)
        | _ => none
      else if c = '-' || c.isDigit then
        match parseNumber (c :: rest) with
        | some (lit, r) => some (Json.num lit, r)
        | none => none
      else none

/-- Parse the members of an object after its `{` (at least one member). -/
def parseObjRest : Nat → List (Str × Json) → Str → Option (Json × Str)
  | 0, _, _ => none
  | fuel + 1, acc, l =>
    match skipWs l with
    | '\"' :: r =>
      match parseStringBody (r.length + 1) r with
      | none => none
      | some (key, r2) =>
        match skipWs r2 with
        | ':' :: r3 =>
          match parseValue fuel r3 with
          | none => none
          | some (v, r4) =>
            match skipWs r4 with
            | ',' :: r5 => parseObjRest fuel (setKey acc key v) r5
            | '\x7d' :: r5 => some (Json.obj (setKey acc key v), r5)
            | _ => none
        | _ => none
    | _ => none

/-- Parse the elements of an array after its `[` (at least one element). -/
def parseArrRest : Nat → List Json → Str → Option (Json × Str)
  | 0, _, _ => none
  | fuel + 1, acc, l =>
    match parseValue fuel l with
    | none => none
    | some (v, r) =>
      match skipWs r with
      | ',' :: r2 => parseArrRest fuel (acc ++ [v]) r2
      | ']' :: r2 => some (Json.arr (acc ++ [v]), r2)
      | _ => none

end

/-- `JSON.parse`: one complete JSON value with only whitespace around it. -/
def jsonParse (l : Str) : Option Json :=
  match parseValue (l.length + 1) l with
  | some (j, rest) => if (skipWs rest).isEmpty then some j else none
  | none => none

/-- ECMAScript whitespace as removed by `String.prototype.trim`. -/
def isJsWs (c : Char) : Bool :=
  c = '\t' || c = '\n' || c = '\x0b' || c = '\x0c' || c = '\r' || c = ' ' ||
  c = '\u00A0' || c = '\u1680' || ('\u2000' ≤ c && c ≤ '\u200A') ||
  c = '\u2028' || c = '\u2029' || c = '\u202F' || c = '\u205F' ||
  c = '\u3000' || c = '\uFEFF'

/-- JavaScript `text.trim()`. -/
def jsTrim (l : Str) : Str :=
  ((l.dropWhile isJsWs).reverse.dropWhile isJsWs).reverse

/-- JavaScript `text.startsWith(p)`. -/
def jsStartsWith (l p : Str) : Bool := List.isPrefixOf p l

/-- JavaScript `text.endsWith(p)`. -/
def jsEndsWith (l p : Str) : Bool := List.isPrefixOf p.reverse l.reverse

/-- Line 234 of the handler: strip a leading ```` ```json ```` marker. -/
def stripJsonFence (c : Str) : Str :=
  if jsStartsWith c (("```json").toList) then c.drop 7 else c

/-- Line 235 of the handler: strip a leading ```` ``` ```` marker. -/
def stripFence (c : Str) : Str :=
  if jsStartsWith c (("```").toList) then c.drop 3 else c

/-- Line 236 of the handler: strip a trailing ```` ``` ```` marker
(`slice(0, -3)`). -/
def stripTrailFence (c : Str) : Str :=
  if jsEndsWith c (("```").toList) then c.take (c.length - 3) else c

/-- The fence-stripping cleanup of the handler's second parse stage
(lines 233-237), applying its four reassignments in order: trim, strip a
leading ```` ```json ```` marker, strip a leading ```` ``` ```` marker,
strip a trailing ```` ``` ```` marker, trim again. -/
def cleanFences (text : Str) : Str :=
  jsTrim (stripTrailFence (stripFence (stripJsonFence (jsTrim text))))

/-- The two-stage tolerant parse of the handler (lines 227-241): parse the
raw text directly; on failure clean fence markers and parse again.  `none`
is the state in which the handler returns its 500 response. -/
def normalize (text : Str) : Option Json :=
  match jsonParse text with
  | some j => some j
  | none => jsonParse (cleanFences text)

/-- A property of a serialized object: present unless its value was
`undefined`, which `JSON.stringify` drops. -/
def optField (key : Str) : Option Str → List (Str × Json)
  | some s => [(key, Json.str s)]
  | none => []

/-- Serialize one `{observation, meaning}` pair as `NextResponse.json` does. -/
def lineToJson (p : LinePair) : Json :=
  Json.obj (optField (("observation").toList) p.observation ++
            optField (("meaning").toList) p.meaning)

/-- Serialize the fallback reading object as `NextResponse.json` does,
property order as in the object literal, `undefined` properties dropped. -/
def localReadingJson (r : LocalReading) : Json :=
  Json.obj ([((("heartLine").toList), lineToJson r.heartLine),
             ((("headLine").toList), lineToJson r.headLine),
             ((("lifeLine").toList), lineToJson r.lifeLine),
             ((("fateLine").toList), lineToJson r.fateLine)] ++
            optField (("overallReading").toList) r.overallReading ++
            optField (("advice").toList) r.advice)

/-- A property is populated when it is present and not null. -/
def fieldPopulated (fields : List (Str × Json)) (key : Str) : Bool :=
  match List.lookup key fields with
  | none => false
  | some Json.null => false
  | some _ => true

/-- The spec's condition on one line field: absent or null is fine; a
present pair must have both `observation` and `meaning` populated. -/
def pairOk (fields : List (Str × Json)) (key : Str) : Bool :=
  match List.lookup key fields with
  | none => true
  | some Json.null => true
  | some (Json.obj sub) =>
    fieldPopulated sub (("observation").toList) &&
    fieldPopulated sub (("meaning").toList)
  | some _ => false

/-- The field-pair invariant of spec section 3, as a predicate on the JSON
body returned by the reading endpoint. -/
def readingInvariant (j : Json) : Bool :=
  match j with
  | Json.obj fields =>
    pairOk fields (("heartLine").toList) && pairOk fields (("headLine").toList) &&
    pairOk fields (("lifeLine").toList) && pairOk fields (("fateLine").toList)
  | _ => false

/-- All six properties of a fallback reading are defined. -/
def fullyPopulated (r : LocalReading) : Bool :=
  r.heartLine.observation.isSome && r.heartLine.meaning.isSome &&
  r.headLine.observation.isSome && r.headLine.meaning.isSome &&
  r.lifeLine.observation.isSome && r.lifeLine.meaning.isSome &&
  r.fateLine.observation.isSome && r.fateLine.meaning.isSome &&
  r.overallReading.isSome && r.advice.isSome

/-- An optional string that is present and non-empty. -/
def strPresent : Option Str → Bool
  | some (_ :: _) => true
  | _ => false

/-- Observable behaviour of one `callGeminiWithRetry` run: its outcome (the
`throw lastError` carries `none` only in the unreachable zero-attempt case),
the attempt numbers called in order, and the milliseconds slept between
attempts in order. -/
structure RetryTrace (ε ρ : Type) where
  result : Except (Option ε) ρ
  callsMade : List Nat
  sleeps : List Nat

/-- The retry loop body: attempts run while `attempt ≤ maxRetries`; the fuel
is the number of remaining iterations.  After a failed attempt with
`attempt < maxRetries` the loop waits `500 * attempt` milliseconds. -/
def retryGo (call : Nat → Except ε ρ) (maxRetries : Nat) :
    Nat → Nat → Option ε → RetryTrace ε ρ
  | 0, _, lastError => ⟨Except.error lastError, [], []⟩
  | fuel + 1, attempt, _ =>
    match call attempt with
    | Except.ok r => ⟨Except.ok r, [attempt], []⟩
    | Except.error e =>
      let rest := retryGo call maxRetries fuel (attempt + 1) (some e)
      ⟨rest.result, attempt :: rest.callsMade,
       (if attempt < maxRetries then [500 * attempt] else []) ++ rest.sleeps⟩

/-- `callGeminiWithRetry(model, prompt, imageData, maxRetries)`: the model,
prompt and image payload are abstracted into the per-attempt outcome oracle
`call`.  The source calls it with its default `maxRetries = 2`. -/
def callGeminiWithRetry (call : Nat → Except ε ρ) (maxRetries : Nat) : RetryTrace ε ρ :=
  retryGo call maxRetries maxRetries 1 none

/-- The request-body fields the reading handler reads.  A body that is not
an object behaves as all-`undefined` fields (property access on a JavaScript
primitive yields `undefined`). -/
structure BodyFields where
  image : JsVal
  dominantHand : JsVal
  focusArea : JsVal

/-- Inputs of one reading-endpoint request with ambient effects explicit:
`body` is `none` when `request.json()` throws (malformed body, or a `null`
body on which property access throws); `apiKey` is the environment variable;
`call` gives each model attempt's outcome; `now` is `Date.now()` as read by
the fallback generator. -/
structure PostInput where
  body : Option BodyFields
  apiKey : Option Str
  call : Nat → Except Str Str
  now : Nat

/-- An HTTP response: status code and JSON body. -/
structure HttpResponse where
  status : Nat
  body : Json

/-- The credentials check of line 143:
`!process.env.GEMINI_API_KEY || key === "your_gemini_api_key_here"`. -/
def apiKeyMissing (k : Option Str) : Bool :=
  match k with
  | none => true
  | some s => s.isEmpty || decide (s = ("your_gemini_api_key_here").toList)

/-- The 400 validation response body. -/
def noImageBody : Json :=
  Json.obj [((("error").toList), Json.str (("No image provided").toList))]

/-- The 500 response body returned when both parse stages fail, carrying the
raw model text as `details`. -/
def parseFailBody (text : Str) : Json :=
  Json.obj [((("error").toList), Json.str (("Failed to parse oracle\x27s response").toList)),
            ((("details").toList), Json.str text)]

/-- The reading-endpoint handler `POST` (lines 129-257).  A truthy non-string
`image` makes `image.split` throw into the outer catch; any failure of the
retried model call also lands in the outer catch; both return the local
fallback reading with the already-assigned `dominantHand`/`focusArea`.  The
`result.response`/`response.text()` steps are folded into the oracle. -/
def POST (inp : PostInput) : HttpResponse :=
  match inp.body with
  | none => ⟨200, localReadingJson (generateLocalReading inp.now JsVal.null JsVal.null)⟩
  | some b =>
    if !jsTruthy b.image then ⟨400, noImageBody⟩
    else if apiKeyMissing inp.apiKey then
      ⟨200, localReadingJson (generateLocalReading inp.now b.dominantHand b.focusArea)⟩
    else
      match b.image with
      | JsVal.str _ =>
        match (callGeminiWithRetry inp.call 2).result with
        | Except.ok text =>
          match normalize text with
          | some j => ⟨200, j⟩
          | none => ⟨500, parseFailBody text⟩
        | Except.error _ =>
          ⟨200, localReadingJson (generateLocalReading inp.now b.dominantHand b.focusArea)⟩
      | _ => ⟨200, localReadingJson (generateLocalReading inp.now b.dominantHand b.focusArea)⟩

/-- The four response categories of the chat fallback responder. -/
inductive ChatCategory where
  | career
  | love
  | destiny
  | general
deriving DecidableEq

/-- The fixed response pools of `generateLocalChatResponse`. -/
def chatPool : ChatCategory → List Str
  | ChatCategory.career =>
    [("The lines of your palm suggest a shift in your professional energy is approaching.").toList,
     ("Your head line indicates a sharp mind that will lead you to success if you trust your analytical gifts.").toList,
     ("The spirits see a path of growth where your unique talents will finally be recognized.").toList]
  | ChatCategory.love =>
    [("Your heart line speaks of deep emotional potential and the beauty of connection.").toList,
     ("The mounts of your palm suggest that being open to vulnerability will bring the harmony you seek.").toList,
     ("A warm energy surrounds your emotional life—patience will reveal the true depth of your heart\x27s journey.").toList]
  | ChatCategory.destiny =>
    [("Destiny is not a fixed path, but a tapestry you weave with every choice.").toList,
     ("The cosmic energy around you is vibrant; the spirits are guiding you toward your true purpose.").toList,
     ("Your fate line, though subtle, shows a soul that is learning to command its own future.").toList]
  | ChatCategory.general =>
    [("The Oracle hears your query, though the spirit realm is currently clouded with shadows.").toList,
     ("Trust in the wisdom already written in the lines of your palm.").toList,
     ("Seek the answers within; your heart already knows the truth you are searching for.").toList,
     ("The stars suggest that now is a time for reflection rather than action.").toList]

/-- ASCII lowercasing, as `toLowerCase` acts on the handler's keyword set. -/
def jsToLowerChar (c : Char) : Char :=
  if 'A' ≤ c ∧ c ≤ 'Z' then Char.ofNat (c.toNat + 32) else c

/-- JavaScript `message.toLowerCase()` on the characters involved here. -/
def jsToLower (l : Str) : Str := l.map jsToLowerChar

/-- JavaScript `haystack.includes(needle)`: substring containment. -/
def jsIncludes (hay needle : Str) : Bool :=
  hay.tails.any (fun t => List.isPrefixOf needle t)

/-- The keyword classification of `generateLocalChatResponse` (lines 32-40):
lowercase the message, then test the four keyword sets in order, first match
winning, no match falling to `general`. -/
def classifyMessage (message : Str) : ChatCategory :=
  let msg := jsToLower message
  if jsIncludes msg (("job").toList) || jsIncludes msg (("career").toList) ||
     jsIncludes msg (("work").toList) || jsIncludes msg (("money").toList) then
    ChatCategory.career
  else if jsIncludes msg (("love").toList) || jsIncludes msg (("heart").toList) ||
          jsIncludes msg (("relationship").toList) || jsIncludes msg (("marriage").toList) then
    ChatCategory.love
  else if jsIncludes msg (("fate").toList) || jsIncludes msg (("destiny").toList) ||
          jsIncludes msg (("future").toList) || jsIncludes msg (("life").toList) then
    ChatCategory.destiny
  else
    ChatCategory.general

/-- `generateLocalChatResponse(message, reading)`: the reading argument is
unused by the source; the `Math.floor(Math.random() * pool.length)` draw is
abstracted as the index `k`, which in the source always satisfies
`k < pool.length`. -/
def generateLocalChatResponse (message : Str) (k : Nat) : Option Str :=
  (chatPool (classifyMessage message)).get? k

end Palm

namespace Palm

/-! ## Helper lemmas -/

/-- An in-range index into a list reads `some` element of it. -/
theorem get_eq_some_of_lt {α : Type} (l : List α) (i : Nat) (h : i < l.length) :
    ∃ x, l.get? i = some x ∧ x ∈ l :=
  ⟨l.get ⟨i, h⟩, List.get?_eq_get h, List.get_mem l i h⟩

/-- `pick` always selects some element of a non-empty pool. -/
theorem pick_eq_some (seed : Nat) (arr : List Str) (h : arr ≠ []) :
    ∃ x, pick seed arr = some x ∧ x ∈ arr :=
  get_eq_some_of_lt arr _ (Nat.mod_lt _ (List.length_pos.mpr h))

/-- A `Date.now()` value whose low 32 bits stay below `2^31`, so that the
JavaScript ToInt32 conversion of the seed is nonnegative. -/
def goodSeed (n : Nat) : Prop := n % 4294967296 < 2147483648

instance (n : Nat) : Decidable (goodSeed n) := by unfold goodSeed; infer_instance

/-- Under a good seed the ToInt32 conversion is the plain low-32-bit value. -/
theorem int32_of_goodSeed {n : Nat} (h : goodSeed n) :
    int32 n = Int.ofNat (n % 4294967296) := by
  unfold int32
  exact if_pos h

/-- Under a good seed `pick2` is a plain nonnegative index selection. -/
theorem pick2_of_goodSeed {n : Nat} (arr : List Str) (h : goodSeed n) :
    pick2 n arr = arr.get? (n % 4294967296 / 16 % arr.length) := by
  unfold pick2 jsShr
  rw [int32_of_goodSeed h]
  have e1 : Int.ediv (Int.ofNat (n % 4294967296)) (Int.ofNat (2 ^ 4)) =
      Int.ofNat (n % 4294967296 / 16) := rfl
  rw [e1]
  have e2 : Int.tmod (Int.ofNat (n % 4294967296 / 16)) (Int.ofNat arr.length) =
      Int.ofNat (n % 4294967296 / 16 % arr.length) := rfl
  rw [e2]
  unfold jsGetElem
  have h0 : (0 : Int) ≤ Int.ofNat (n % 4294967296 / 16 % arr.length) :=
    Int.ofNat_nonneg _
  rw [if_pos h0]
  rfl

/-- Under a good seed `pick3` is a plain nonnegative index selection. -/
theorem pick3_of_goodSeed {n : Nat} (arr : List Str) (h : goodSeed n) :
    pick3 n arr = arr.get? (n % 4294967296 / 256 % arr.length) := by
  unfold pick3 jsShr
  rw [int32_of_goodSeed h]
  have e1 : Int.ediv (Int.ofNat (n % 4294967296)) (Int.ofNat (2 ^ 8)) =
      Int.ofNat (n % 4294967296 / 256) := rfl
  rw [e1]
  have e2 : Int.tmod (Int.ofNat (n % 4294967296 / 256)) (Int.ofNat arr.length) =
      Int.ofNat (n % 4294967296 / 256 % arr.length) := rfl
  rw [e2]
  unfold jsGetElem
  have h0 : (0 : Int) ≤ Int.ofNat (n % 4294967296 / 256 % arr.length) :=
    Int.ofNat_nonneg _
  rw [if_pos h0]
  rfl

/-- `pick2` selects some element of a non-empty pool under a good seed. -/
theorem pick2_eq_some {n : Nat} (arr : List Str) (h : goodSeed n) (hne : arr ≠ []) :
    ∃ x, pick2 n arr = some x ∧ x ∈ arr := by
  rw [pick2_of_goodSeed arr h]
  exact get_eq_some_of_lt arr _ (Nat.mod_lt _ (List.length_pos.mpr hne))

/-- `pick3` selects some element of a non-empty pool under a good seed. -/
theorem pick3_eq_some {n : Nat} (arr : List Str) (h : goodSeed n) (hne : arr ≠ []) :
    ∃ x, pick3 n arr = some x ∧ x ∈ arr := by
  rw [pick3_of_goodSeed arr h]
  exact get_eq_some_of_lt arr _ (Nat.mod_lt _ (List.length_pos.mpr hne))

/-- One failing step of the retry loop always records its attempt. -/
theorem retryGo_callsMade_ne {ε ρ : Type} (call : Nat → Except ε ρ)
    (m fuel attempt : Nat) (le : Option ε) :
    (retryGo call m (fuel + 1) attempt le).callsMade ≠ [] := by
  cases h : call attempt <;> simp [retryGo, h]

/-- One unfolding step of the retry loop. -/
theorem retryGo_succ {ε ρ : Type} (call : Nat → Except ε ρ)
    (m fuel attempt : Nat) (le : Option ε) :
    retryGo call m (fuel + 1) attempt le =
      match call attempt with
      | Except.ok r => ⟨Except.ok r, [attempt], []⟩
      | Except.error e =>
        ⟨(retryGo call m fuel (attempt + 1) (some e)).result,
         attempt :: (retryGo call m fuel (attempt + 1) (some e)).callsMade,
         (if attempt < m then [500 * attempt] else []) ++
           (retryGo call m fuel (attempt + 1) (some e)).sleeps⟩ := rfl

/-- The retry loop makes consecutive attempts starting at `attempt`, and
sleeps `500 * i` after exactly the non-final attempts `i`. -/
theorem retryGo_trace {ε ρ : Type} (call : Nat → Except ε ρ) (m : Nat) :
    ∀ fuel attempt le, attempt + fuel = m + 1 →
      (retryGo call m fuel attempt le).callsMade =
        List.range' attempt (retryGo call m fuel attempt le).callsMade.length ∧
      (retryGo call m fuel attempt le).sleeps =
        ((retryGo call m fuel attempt le).callsMade.dropLast).map (fun i => 500 * i) := by
  intro fuel
  induction fuel with
  | zero =>
    intro attempt le _
    simp [retryGo]
  | succ f ih =>
    intro attempt le hsum
    rw [retryGo_succ]
    cases hc : call attempt with
    | ok r => simp [List.range'_succ]
    | error e =>
      obtain ⟨ihc, ihs⟩ := ih (attempt + 1) (some e) (by omega)
      cases f with
      | zero =>
        have ham : attempt = m := by omega
        subst ham
        simp [retryGo, List.range'_succ]
      | succ f2 =>
        have hne := retryGo_callsMade_ne call m f2 (attempt + 1) (some e)
        have hlt : attempt < m := by omega
        constructor
        · dsimp only
          rw [List.length_cons, List.range'_succ]
          exact congrArg _ ihc
        · dsimp only
          rw [if_pos hlt, List.dropLast_cons_of_ne_nil hne, List.map_cons, ← ihs]
          simp

/-! ## Claims -/

/-- C5: the model client makes attempts strictly sequentially up to
`maxAttempts`; after a failed attempt `i` with `i < maxAttempts` it waits
`500 * i` milliseconds (linear backoff) before retrying; and with
`maxAttempts = 2` against a client whose first two calls fail, it performs
exactly the calls 1 and 2 — never a third, whatever the client would answer
from the third call on — sleeps 500 ms once, and raises the last observed
error. -/
theorem c5_retry_sequential_backoff :
    (∀ (ε ρ : Type) (call : Nat → Except ε ρ) (m : Nat),
      (callGeminiWithRetry call m).callsMade =
        List.range' 1 (callGeminiWithRetry call m).callsMade.length ∧
      (callGeminiWithRetry call m).sleeps =
        ((callGeminiWithRetry call m).callsMade.dropLast).map (fun i => 500 * i)) ∧
    (∀ (ε ρ : Type) (e1 e2 : ε) (g : Nat → Except ε ρ),
      callGeminiWithRetry
          (fun i => if i = 1 then Except.error e1
                    else if i = 2 then Except.error e2 else g i) 2 =
        ⟨Except.error (some e2), [1, 2], [500]⟩) := by
  constructor
  · intro ε ρ call m
    exact retryGo_trace call m m 1 none (by omega)
  · intro ε ρ e1 e2 g
    rfl

/-- C7: a reading request whose `image` field is absent yields the 400
validation response, never a synthesized fallback reading, for every
credential state — the image check precedes the credentials check. -/
theorem c7_missing_image_validation (key : Option Str) (call : Nat → Except Str Str)
    (seed : Nat) (hand focus : JsVal) :
    POST ⟨some ⟨JsVal.undef, hand, focus⟩, key, call, seed⟩ = ⟨400, noImageBody⟩ := rfl

/-- C8: the fallback synthesizer is deterministic in its seed: two runs that
observe the same millisecond timestamp and receive the same `dominantHand`
and `focusArea` produce identical readings (the clock is the explicit first
argument of the embedded function). -/
theorem c8_fallback_deterministic (s1 s2 : Nat) (hand focus : JsVal) (h : s1 = s2) :
    generateLocalReading s1 hand focus = generateLocalReading s2 hand focus := by
  rw [h]

/-- Witness for C8 at a concrete timestamp. -/
theorem c8_witness :
    generateLocalReading 1791676800000 JsVal.null JsVal.null =
      generateLocalReading 1791676800000 JsVal.null JsVal.null :=
  c8_fallback_deterministic 1791676800000 1791676800000 JsVal.null JsVal.null rfl

/-- C9: the chat fallback responder classifies by case-insensitive keyword
containment in the fixed priority order career, love, destiny, general
(first match wins, no match falling to general): "What about my job?" is
career, "Will I find love?" is love, "Tell me about my destiny" is destiny,
"Hello" is general; and every reply it returns is drawn from the matched
category's pool. -/
theorem c9_chat_classification :
    (classifyMessage (("What about my job?").toList) = ChatCategory.career ∧
     classifyMessage (("Will I find love?").toList) = ChatCategory.love ∧
     classifyMessage (("Tell me about my destiny").toList) = ChatCategory.destiny ∧
     classifyMessage (("Hello").toList) = ChatCategory.general) ∧
    (∀ (message : Str) (k : Nat) (r : Str),
      generateLocalChatResponse message k = some r →
      r ∈ chatPool (classifyMessage message)) := by
  refine ⟨⟨by decide, by decide, by decide, by decide⟩, ?_⟩
  intro message k r h
  exact List.get?_mem h

/-- Witness for C9: the first general-pool reply for "Hello". -/
theorem c9_witness :
    (("The Oracle hears your query, though the spirit realm is currently clouded with shadows.").toList) ∈
      chatPool (classifyMessage (("Hello").toList)) :=
  c9_chat_classification.2 (("Hello").toList) 0 _ rfl

/-- C10: a reading request whose body fails to parse as JSON, or whose
processing throws before the model is invoked (a truthy non-string `image`
on which data-URI splitting fails), is answered 200 with a synthesized
fallback reading — `dominantHand` and `focusArea` are null when the failure
precedes their assignment — rather than a 400 validation error. -/
theorem c10_body_failures_return_fallback (key : Option Str)
    (call : Nat → Except Str Str) (seed : Nat) (hand focus : JsVal) (v : JsVal)
    (hkey : apiKeyMissing key = false) (hv : jsTruthy v = true)
    (hs : ∀ s, v ≠ JsVal.str s) :
    POST ⟨none, key, call, seed⟩ =
      ⟨200, localReadingJson (generateLocalReading seed JsVal.null JsVal.null)⟩ ∧
    POST ⟨some ⟨v, hand, focus⟩, key, call, seed⟩ =
      ⟨200, localReadingJson (generateLocalReading seed hand focus)⟩ := by
  constructor
  · rfl
  · cases v with
    | undef => simp [jsTruthy] at hv
    | null => simp [jsTruthy] at hv
    | bool b =>
      cases b with
      | true => simp [POST, jsTruthy, hkey]
      | false => simp [jsTruthy] at hv
    | num n => simp [POST, hv, hkey]
    | str t => exact absurd rfl (hs t)

/-- Witness for C10 at a concrete malformed request (image given as the
number 5) with credentials configured. -/
theorem c10_witness :
    POST ⟨none, some (("k").toList), fun _ => Except.error (("boom").toList), 1791676800000⟩ =
      ⟨200, localReadingJson (generateLocalReading 1791676800000 JsVal.null JsVal.null)⟩ ∧
    POST ⟨some ⟨JsVal.num 5, JsVal.null, JsVal.null⟩, some (("k").toList),
          fun _ => Except.error (("boom").toList), 1791676800000⟩ =
      ⟨200, localReadingJson (generateLocalReading 1791676800000 JsVal.null JsVal.null)⟩ :=
  c10_body_failures_return_fallback (some (("k").toList))
    (fun _ => Except.error (("boom").toList)) 1791676800000 JsVal.null JsVal.null
    (JsVal.num 5) (by decide) (by decide) (by intro s h; cases h)

/-- C1 counterexample: with credentials configured and the model returning
unparseable text, the handler answers 500 carrying the raw model text in
`details` — not a 200 fallback reading. -/
theorem c1_counterexample :
    POST ⟨some ⟨JsVal.str (("data:image/jpeg;base64,AAAA").toList), JsVal.null, JsVal.null⟩,
          some (("k").toList), fun _ => Except.ok (("not json").toList), 1791676800000⟩ =
      ⟨500, parseFailBody (("not json").toList)⟩ ∧
    (POST ⟨some ⟨JsVal.str (("data:image/jpeg;base64,AAAA").toList), JsVal.null, JsVal.null⟩,
          some (("k").toList), fun _ => Except.ok (("not json").toList), 1791676800000⟩).status ≠ 200 := by
  exact ⟨rfl, by decide⟩

/-- C1 amended: when credentials are configured, the image is a non-empty
string, the model call succeeds, and both parse stages fail, the handler
returns HTTP 500 with an error object carrying the raw model text as
`details`; the malformed-output path is user-visible, unlike transport
failures, which do produce the 200 fallback. -/
theorem c1_amended_parse_failure_returns_500 (img text : Str) (hand focus : JsVal)
    (key : Option Str) (seed : Nat) (himg : img ≠ [])
    (hkey : apiKeyMissing key = false) (hnorm : normalize text = none) :
    POST ⟨some ⟨JsVal.str img, hand, focus⟩, key, fun _ => Except.ok text, seed⟩ =
      ⟨500, parseFailBody text⟩ := by
  have ht : jsTruthy (JsVal.str img) = true := by
    cases img with
    | nil => exact absurd rfl himg
    | cons c t => rfl
  have hres : (callGeminiWithRetry (fun _ => (Except.ok text : Except Str Str)) 2).result =
      Except.ok text := rfl
  simp [POST, ht, hkey, hres, hnorm]

/-- Witness for the amended C1 at concrete inputs. -/
theorem c1_amended_witness :
    normalize (("not json").toList) = none ∧
    POST ⟨some ⟨JsVal.str (("d,A").toList), JsVal.null, JsVal.null⟩,
          some (("k").toList), fun _ => Except.ok (("not json").toList), 7⟩ =
      ⟨500, parseFailBody (("not json").toList)⟩ :=
  ⟨rfl, c1_amended_parse_failure_returns_500 (("d,A").toList) (("not json").toList)
    JsVal.null JsVal.null (some (("k").toList)) 7 (by decide) (by decide) rfl⟩

/-- C2 counterexample: on the model path the parsed output is returned with
no validation, so a heart line carrying an observation without a meaning is
served as a 200 reading violating the field-pair invariant; and on the
fallback path a timestamp whose low 32 bits exceed 2^31 makes the JavaScript
shift negative, dropping the meaning fields. -/
theorem c2_counterexample :
    readingInvariant (POST ⟨some ⟨JsVal.str (("d,A").toList), JsVal.null, JsVal.null⟩,
      some (("k").toList),
      fun _ => Except.ok (("\x7b\"heartLine\":\x7b\"observation\":\"x\"\x7d,\"overallReading\":\"o\",\"advice\":\"a\"\x7d").toList),
      1791676800000⟩).body = false ∧
    (POST ⟨some ⟨JsVal.str (("d,A").toList), JsVal.null, JsVal.null⟩,
      some (("k").toList),
      fun _ => Except.ok (("\x7b\"heartLine\":\x7b\"observation\":\"x\"\x7d,\"overallReading\":\"o\",\"advice\":\"a\"\x7d").toList),
      1791676800000⟩).status = 200 ∧
    (generateLocalReading 1793148846080 JsVal.null JsVal.null).heartLine.meaning = none ∧
    readingInvariant (localReadingJson (generateLocalReading 1793148846080 JsVal.null JsVal.null)) = false := by
  exact ⟨by decide, rfl, by decide, by decide⟩

/-- C2 amended: a reading produced by the fallback synthesizer satisfies the
field-pair invariant whenever the timestamp's low 32 bits are below 2^31;
the model path returns the parsed model output without shape validation, so
the invariant is not guaranteed there. -/
theorem c2_amended_fallback_invariant (seed : Nat) (hand focus : JsVal)
    (h : goodSeed seed) :
    readingInvariant (localReadingJson (generateLocalReading seed hand focus)) = true := by
  obtain ⟨a1, ha1, _⟩ := pick_eq_some seed heartObservations (by decide)
  obtain ⟨b1, hb1, _⟩ := pick2_eq_some heartMeanings h (by decide)
  obtain ⟨a2, ha2, _⟩ := pick_eq_some seed headObservations (by decide)
  obtain ⟨b2, hb2, _⟩ := pick2_eq_some headMeanings h (by decide)
  obtain ⟨a3, ha3, _⟩ := pick_eq_some seed lifeObservations (by decide)
  obtain ⟨b3, hb3, _⟩ := pick2_eq_some lifeMeanings h (by decide)
  simp only [generateLocalReading, ha1, hb1, ha2, hb2, ha3, hb3]
  rfl

/-- Witness for the amended C2 at a concrete good timestamp. -/
theorem c2_amended_witness :
    goodSeed 1791676800000 ∧
    readingInvariant (localReadingJson
      (generateLocalReading 1791676800000 JsVal.null JsVal.null)) = true :=
  ⟨by decide, c2_amended_fallback_invariant 1791676800000 JsVal.null JsVal.null (by decide)⟩

/-- C3 counterexample: the two-stage parse accepts structured text lacking
`advice` and returns the parsed result instead of treating it as malformed. -/
theorem c3_counterexample :
    normalize (("\x7b\"overallReading\":\"o\"\x7d").toList) =
      some (Json.obj [((("overallReading").toList), Json.str (("o").toList))]) ∧
    (normalize (("\x7b\"overallReading\":\"o\"\x7d").toList)).isSome = true ∧
    List.lookup (("advice").toList)
      [((("overallReading").toList), Json.str (("o").toList))] = none := by
  exact ⟨rfl, rfl, rfl⟩

/-- C3 amended: after a successful structured parse the handler performs no
mandatory-field validation: the parsed result is returned as the 200 body
as-is, whether or not `overallReading` or `advice` are present; rejection
happens only when both parse stages fail. -/
theorem c3_amended_no_advice_validation (img text : Str) (hand focus : JsVal)
    (key : Option Str) (seed : Nat) (j : Json) (himg : img ≠ [])
    (hkey : apiKeyMissing key = false) (hparse : jsonParse text = some j) :
    POST ⟨some ⟨JsVal.str img, hand, focus⟩, key, fun _ => Except.ok text, seed⟩ =
      ⟨200, j⟩ := by
  have ht : jsTruthy (JsVal.str img) = true := by
    cases img with
    | nil => exact absurd rfl himg
    | cons c t => rfl
  have hres : (callGeminiWithRetry (fun _ => (Except.ok text : Except Str Str)) 2).result =
      Except.ok text := rfl
  have hnorm : normalize text = some j := by simp [normalize, hparse]
  simp [POST, ht, hkey, hres, hnorm]

/-- Witness for the amended C3: an advice-less object is returned as-is. -/
theorem c3_amended_witness :
    POST ⟨some ⟨JsVal.str (("d,A").toList), JsVal.null, JsVal.null⟩,
          some (("k").toList),
          fun _ => Except.ok (("\x7b\"overallReading\":\"o\"\x7d").toList), 7⟩ =
      ⟨200, Json.obj [((("overallReading").toList), Json.str (("o").toList))]⟩ :=
  c3_amended_no_advice_validation (("d,A").toList)
    (("\x7b\"overallReading\":\"o\"\x7d").toList) JsVal.null JsVal.null
    (some (("k").toList)) 7
    (Json.obj [((("overallReading").toList), Json.str (("o").toList))])
    (by decide) (by decide) rfl

/-- A non-empty string is present. -/
theorem strPresent_some {x : Str} (hx : x ≠ []) : strPresent (some x) = true := by
  cases x with
  | nil => exact absurd rfl hx
  | cons c t => rfl

/-- C4 counterexample: at the timestamp 1791676801024 (whose overall-reading
index is 2) the null/null and "left"/"career" calls produce the same
`overallReading`, because template 2 branches only on
`dominantHand === "right"`; and at the timestamp 1793148846080 (low 32 bits
above 2^31) the reading is not fully populated: the meanings and the overall
reading come out `undefined`. -/
theorem c4_counterexample :
    (generateLocalReading 1791676801024 JsVal.null JsVal.null).overallReading =
      (generateLocalReading 1791676801024 (JsVal.str (("left").toList))
        (JsVal.str (("career").toList))).overallReading ∧
    (generateLocalReading 1793148846080 JsVal.null JsVal.null).heartLine.meaning = none ∧
    (generateLocalReading 1793148846080 JsVal.null JsVal.null).overallReading = none := by
  exact ⟨by decide, by decide, by decide⟩

/-- C4 amended: for timestamps whose low 32 bits are below 2^31, both
`synthesize(null, null)` and `synthesize("left", "career")` return fully
populated readings with non-empty `overallReading` and `advice`; their
`overallReading`s differ whenever the selected template index
(`low32 >> 8 mod 5`) is not 2 — at index 2 the template branches only on
`dominantHand === "right"`, which holds for neither call, so both calls get
identical text. -/
theorem c4_amended_populated_and_differs (seed : Nat) (h : goodSeed seed) :
    (fullyPopulated (generateLocalReading seed JsVal.null JsVal.null) = true ∧
     fullyPopulated (generateLocalReading seed (JsVal.str (("left").toList))
       (JsVal.str (("career").toList))) = true ∧
     strPresent (generateLocalReading seed JsVal.null JsVal.null).overallReading = true ∧
     strPresent (generateLocalReading seed JsVal.null JsVal.null).advice = true ∧
     strPresent (generateLocalReading seed (JsVal.str (("left").toList))
       (JsVal.str (("career").toList))).overallReading = true ∧
     strPresent (generateLocalReading seed (JsVal.str (("left").toList))
       (JsVal.str (("career").toList))).advice = true) ∧
    (seed % 4294967296 / 256 % 5 ≠ 2 →
      (generateLocalReading seed JsVal.null JsVal.null).overallReading ≠
        (generateLocalReading seed (JsVal.str (("left").toList))
          (JsVal.str (("career").toList))).overallReading) := by
  obtain ⟨a1, ha1, _⟩ := pick_eq_some seed heartObservations (by decide)
  obtain ⟨b1, hb1, _⟩ := pick2_eq_some heartMeanings h (by decide)
  obtain ⟨a2, ha2, _⟩ := pick_eq_some seed headObservations (by decide)
  obtain ⟨b2, hb2, _⟩ := pick2_eq_some headMeanings h (by decide)
  obtain ⟨a3, ha3, _⟩ := pick_eq_some seed lifeObservations (by decide)
  obtain ⟨b3, hb3, _⟩ := pick2_eq_some lifeMeanings h (by decide)
  obtain ⟨ov1, hov1, hov1mem⟩ :=
    pick3_eq_some (overallReadings JsVal.null JsVal.null) h (by decide)
  obtain ⟨ov2, hov2, hov2mem⟩ :=
    pick3_eq_some (overallReadings (JsVal.str (("left").toList))
      (JsVal.str (("career").toList))) h (by decide)
  obtain ⟨ad, had, hadmem⟩ := pick_eq_some seed adviceList (by decide)
  have hovne1 : ov1 ≠ [] := by
    have hall : ∀ y ∈ overallReadings JsVal.null JsVal.null, y ≠ [] := by decide
    exact hall ov1 hov1mem
  have hovne2 : ov2 ≠ [] := by
    have hall : ∀ y ∈ overallReadings (JsVal.str (("left").toList))
        (JsVal.str (("career").toList)), y ≠ [] := by decide
    exact hall ov2 hov2mem
  have hadne : ad ≠ [] := by
    have hall : ∀ y ∈ adviceList, y ≠ [] := by decide
    exact hall ad hadmem
  constructor
  · refine ⟨?_, ?_, ?_, ?_, ?_, ?_⟩
    · simp only [fullyPopulated, generateLocalReading]
      rw [ha1, hb1, ha2, hb2, ha3, hb3, hov1, had]
      rfl
    · simp only [fullyPopulated, generateLocalReading]
      rw [ha1, hb1, ha2, hb2, ha3, hb3, hov2, had]
      rfl
    · simp only [generateLocalReading]
      rw [hov1]
      exact strPresent_some hovne1
    · simp only [generateLocalReading]
      rw [had]
      exact strPresent_some hadne
    · simp only [generateLocalReading]
      rw [hov2]
      exact strPresent_some hovne2
    · simp only [generateLocalReading]
      rw [had]
      exact strPresent_some hadne
  · intro hne2
    have e1 : (generateLocalReading seed JsVal.null JsVal.null).overallReading =
        (overallReadings JsVal.null JsVal.null).get? (seed % 4294967296 / 256 % 5) := by
      simp only [generateLocalReading]
      rw [pick3_of_goodSeed _ h]
      rfl
    have e2 : (generateLocalReading seed (JsVal.str (("left").toList))
          (JsVal.str (("career").toList))).overallReading =
        (overallReadings (JsVal.str (("left").toList))
          (JsVal.str (("career").toList))).get? (seed % 4294967296 / 256 % 5) := by
      simp only [generateLocalReading]
      rw [pick3_of_goodSeed _ h]
      rfl
    rw [e1, e2]
    have hlt : seed % 4294967296 / 256 % 5 < 5 := Nat.mod_lt _ (by decide)
    have hcases : seed % 4294967296 / 256 % 5 = 0 ∨ seed % 4294967296 / 256 % 5 = 1 ∨
        seed % 4294967296 / 256 % 5 = 3 ∨ seed % 4294967296 / 256 % 5 = 4 := by omega
    rcases hcases with h0 | h1 | h3 | h4
    · rw [h0]; decide
    · rw [h1]; decide
    · rw [h3]; decide
    · rw [h4]; decide

/-- Witness for the amended C4 at a concrete good timestamp with template
index 3. -/
theorem c4_amended_witness :
    goodSeed 1791676800000 ∧ 1791676800000 % 4294967296 / 256 % 5 ≠ 2 ∧
    (generateLocalReading 1791676800000 JsVal.null JsVal.null).overallReading ≠
      (generateLocalReading 1791676800000 (JsVal.str (("left").toList))
        (JsVal.str (("career").toList))).overallReading :=
  ⟨by decide, by decide,
   (c4_amended_populated_and_differs 1791676800000 (by decide)).2 (by decide)⟩

/-- A value parse refuses input whose first character is a backtick. -/
theorem parseValue_backtick (k : Nat) (l : Str) : parseValue (k + 1) ('\x60' :: l) = none := rfl

/-- `JSON.parse` refuses input starting with a backtick. -/
theorem jsonParse_backtick (l : Str) : jsonParse ('\x60' :: l) = none := by
  unfold jsonParse
  rw [List.length_cons, parseValue_backtick]

/-- `dropWhile` keeps a list whose head fails the predicate. -/
theorem dropWhile_cons_of_false {p : Char → Bool} {c : Char} (l : Str) (h : p c = false) :
    (c :: l).dropWhile p = c :: l := by
  simp [List.dropWhile, h]

/-- A list unchanged by a whitespace `dropWhile` has a non-whitespace head. -/
theorem head_not_ws_of_dropWhile_eq {c : Char} {t : Str}
    (h : (c :: t).dropWhile isJsWs = c :: t) : isJsWs c = false := by
  have := List.dropWhile_eq_self_iff.mp h (by simp)
  simpa using this

/-- Trimming fixes a string whose first and last characters are not
whitespace. -/
theorem jsTrim_eq_self_of_heads {c d : Char} {t u : Str} (l : Str)
    (hl : l = c :: t) (hr : l.reverse = d :: u)
    (hc : isJsWs c = false) (hd : isJsWs d = false) : jsTrim l = l := by
  unfold jsTrim
  rw [hl, dropWhile_cons_of_false _ hc, ← hl, hr, dropWhile_cons_of_false _ hd, ← hr,
    List.reverse_reverse]

/-- Trimming a trimmed non-empty string wrapped in single newlines recovers
the string. -/
theorem jsTrim_wrap {s : Str} (hs : s ≠ []) (h1 : s.dropWhile isJsWs = s)
    (h2 : s.reverse.dropWhile isJsWs = s.reverse) :
    jsTrim ('\n' :: (s ++ ['\n'])) = s := by
  obtain ⟨c, t, rfl⟩ : ∃ c t, s = c :: t := by
    cases s with
    | nil => exact absurd rfl hs
    | cons c t => exact ⟨c, t, rfl⟩
  have hc : isJsWs c = false := head_not_ws_of_dropWhile_eq h1
  unfold jsTrim
  have e1 : ('\n' :: ((c :: t) ++ ['\n'])).dropWhile isJsWs = (c :: t) ++ ['\n'] := by
    rw [List.dropWhile_cons]
    simp only [List.cons_append]
    rw [dropWhile_cons_of_false _ hc]
    rfl
  rw [e1]
  have e2 : ((c :: t) ++ ['\n']).reverse = '\n' :: (c :: t).reverse := by
    simp
  rw [e2, List.dropWhile_cons]
  have hnl : isJsWs '\n' = true := rfl
  rw [hnl]
  simp only [if_true]
  rw [h2, List.reverse_reverse]

/-- After the leading fence is stripped, the trailing-fence strip and final
trim recover the trimmed payload. -/
theorem cleanTail (s : Str) (hs : s ≠ []) (h1 : s.dropWhile isJsWs = s)
    (h2 : s.reverse.dropWhile isJsWs = s.reverse) :
    jsTrim (stripTrailFence ('\n' :: (s ++ (("\n```").toList)))) = s := by
  have hrev2 : ('\n' :: (s ++ (("\n```").toList))).reverse =
      '\x60' :: '\x60' :: '\x60' :: '\n' :: (s.reverse ++ ['\n']) := by
    rw [List.reverse_cons, List.reverse_append]
    rfl
  have hend : jsEndsWith ('\n' :: (s ++ (("\n```").toList))) (("```").toList) = true := by
    unfold jsEndsWith
    rw [hrev2]
    rfl
  have hlen4 : ((("\n```").toList) : Str).length = 4 := rfl
  have hlen : ('\n' :: (s ++ (("\n```").toList))).length - 3 = s.length + 2 := by
    rw [List.length_cons, List.length_append, hlen4]
    omega
  have htake : ('\n' :: (s ++ (("\n```").toList))).take (s.length + 2) =
      '\n' :: (s ++ ['\n']) := by
    rw [List.take_succ_cons, List.take_append_eq_append_take,
      List.take_of_length_le (by omega)]
    have e : s.length + 1 - s.length = 1 := by omega
    rw [e]
    rfl
  unfold stripTrailFence
  rw [hend]
  simp only [if_true]
  rw [hlen, htake]
  exact jsTrim_wrap hs h1 h2

/-- The cleanup recovers a trimmed payload wrapped in a tagged fence. -/
theorem cleanFences_tagged (s : Str) (hs : s ≠ []) (h1 : s.dropWhile isJsWs = s)
    (h2 : s.reverse.dropWhile isJsWs = s.reverse) :
    cleanFences ((("```json\n").toList) ++ s ++ (("\n```").toList)) = s := by
  have hrevF : (((("```json\n").toList) ++ s ++ (("\n```").toList)) : Str).reverse =
      '\x60' :: ('\x60' :: '\x60' :: '\n' ::
        (s.reverse ++ ((("```json\n").toList) : Str).reverse)) := by
    rw [List.reverse_append, List.reverse_append]
    rfl
  have hc0 : jsTrim ((("```json\n").toList) ++ s ++ (("\n```").toList)) =
      (("```json\n").toList) ++ s ++ (("\n```").toList) :=
    jsTrim_eq_self_of_heads _ rfl hrevF rfl rfl
  have hstrip : stripFence (stripJsonFence ((("```json\n").toList) ++ s ++ (("\n```").toList))) =
      '\n' :: (s ++ (("\n```").toList)) := rfl
  unfold cleanFences
  rw [hc0, hstrip]
  exact cleanTail s hs h1 h2

/-- The cleanup recovers a trimmed payload wrapped in an untagged fence. -/
theorem cleanFences_plain (s : Str) (hs : s ≠ []) (h1 : s.dropWhile isJsWs = s)
    (h2 : s.reverse.dropWhile isJsWs = s.reverse) :
    cleanFences ((("```\n").toList) ++ s ++ (("\n```").toList)) = s := by
  have hrevF : (((("```\n").toList) ++ s ++ (("\n```").toList)) : Str).reverse =
      '\x60' :: ('\x60' :: '\x60' :: '\n' ::
        (s.reverse ++ ((("```\n").toList) : Str).reverse)) := by
    rw [List.reverse_append, List.reverse_append]
    rfl
  have hc0 : jsTrim ((("```\n").toList) ++ s ++ (("\n```").toList)) =
      (("```\n").toList) ++ s ++ (("\n```").toList) :=
    jsTrim_eq_self_of_heads _ rfl hrevF rfl rfl
  have hstrip : stripFence (stripJsonFence ((("```\n").toList) ++ s ++ (("\n```").toList))) =
      '\n' :: (s ++ (("\n```").toList)) := rfl
  unfold cleanFences
  rw [hc0, hstrip]
  exact cleanTail s hs h1 h2

/-- C6: on a valid structured-data string (no surrounding whitespace) the
two-stage parse returns exactly the parsed structure (round-trip identity),
and the same content wrapped in leading/trailing fence markers — tagged
```` ```json ```` or plain ```` ``` ```` — normalizes to an identical
result. -/
theorem c6_normalize_roundtrip_fences (s : Str) (j : Json)
    (h1 : s.dropWhile isJsWs = s) (h2 : s.reverse.dropWhile isJsWs = s.reverse)
    (hp : jsonParse s = some j) :
    normalize s = some j ∧
    normalize ((("```json\n").toList) ++ s ++ (("\n```").toList)) = some j ∧
    normalize ((("```\n").toList) ++ s ++ (("\n```").toList)) = some j := by
  have hs : s ≠ [] := by
    intro he
    have hnil : jsonParse ([] : Str) = none := rfl
    rw [he, hnil] at hp
    exact Option.noConfusion hp
  refine ⟨?_, ?_, ?_⟩
  · unfold normalize
    rw [hp]
  · have hpf : jsonParse ((("```json\n").toList) ++ s ++ (("\n```").toList)) = none :=
      jsonParse_backtick _
    unfold normalize
    rw [hpf, cleanFences_tagged s hs h1 h2, hp]
  · have hpf : jsonParse ((("```\n").toList) ++ s ++ (("\n```").toList)) = none :=
      jsonParse_backtick _
    unfold normalize
    rw [hpf, cleanFences_plain s hs h1 h2, hp]

/-- Witness for C6 on a concrete reading-shaped document. -/
theorem c6_witness :
    normalize (("\x7b\"overallReading\":\"o\",\"advice\":\"a\"\x7d").toList) =
      some (Json.obj [((("overallReading").toList), Json.str (("o").toList)),
                      ((("advice").toList), Json.str (("a").toList))]) ∧
    normalize ((("```json\n").toList) ++
        (("\x7b\"overallReading\":\"o\",\"advice\":\"a\"\x7d").toList) ++
        (("\n```").toList)) =
      some (Json.obj [((("overallReading").toList), Json.str (("o").toList)),
                      ((("advice").toList), Json.str (("a").toList))]) ∧
    normalize ((("```\n").toList) ++
        (("\x7b\"overallReading\":\"o\",\"advice\":\"a\"\x7d").toList) ++
        (("\n```").toList)) =
      some (Json.obj [((("overallReading").toList), Json.str (("o").toList)),
                      ((("advice").toList), Json.str (("a").toList))]) :=
  c6_normalize_roundtrip_fences _ _ rfl rfl rfl

end Palm
